import Mathlib

/-!
A shallow embedding of `offline-fetch` (src/src/offline-fetch.js), a caching
decorator around the `fetch` primitive, together with proofs checking the
natural-language specification against it.

The JavaScript program is asynchronous but single-threaded, and every claim is
about the observable behaviour of one `offlineFetch(url, options)` call: the
settled outcome of the returned promise, the storage reads and writes it makes,
the fetch calls it issues, the retry delays it schedules, and the in-place
mutation of the caller's options object.  One call is therefore modelled as a
pure function from an environment (the results the host supplies: fetch
outcomes per attempt, the storage read, the online flag, the clock) to a
`RunResult` recording the outcome and the effect trace.

Serialization (`JSON.stringify` / `JSON.parse`) is modelled symbolically: a
stored string is either the serialization of a cache record (round-tripping to
that record) or a string that does not parse (JSON.parse throws).  The
`promiseTimeout` race is modelled by letting the environment report a fetch
attempt as `hang` (the timer wins the race); the resolved `timeout` duration
itself is therefore not consulted by the model.  The `if (!fetch)` environment
check is omitted: the environment of the model always has a fetch primitive.
-/

namespace OfflineFetchModel

/-- A primitive JavaScript value, as far as `offlineFetch`'s control flow
inspects one: `undefined`, `null`, booleans, (integer) numbers, strings. -/
inductive JSPrim where
  | undefV
  | null
  | boolV (b : Bool)
  | numV (n : Int)
  | strV (s : String)
deriving DecidableEq, Repr

/-- JavaScript truthiness of a primitive value. -/
def JSPrim.truthy : JSPrim → Bool
  | .undefV => false
  | .null => false
  | .boolV b => b
  | .numV n => n != 0
  | .strV s => s != ""

/-- JavaScript string coercion of a primitive value (as used when a value is
concatenated into the hash input `method + '|' + url`). -/
def JSPrim.coerceToString : JSPrim → String
  | .undefV => "undefined"
  | .null => "null"
  | .boolV b => if b then "true" else "false"
  | .numV n => toString n
  | .strV s => s

/-- The `options.offline` object: per-call configuration.  Numeric fields are
`Option Int` (`none` = property absent).  `renew` and `debug` are raw values:
the source tests them with `=== true`.  The key generator receives
`(url, options, requestHash)` in the source; the `options` argument — the very
object being dispatched, constant within the call — is suppressed here. -/
structure OfflineOptions where
  storage : Option String
  timeout : Option Int
  retries : Option Int
  retryDelay : Option Int
  expires : Option Int
  renew : JSPrim
  debug : JSPrim
  cacheKeyGenerator : Option (JSPrim → String → String)

/-- The empty offline-options object `{}`. -/
def OfflineOptions.empty : OfflineOptions :=
  ⟨none, none, none, none, none, .undefV, .undefV, none⟩

/-- The value of the `offline` property: an object, or a primitive
(`true`, `1`, absent = `undefined`, ...). -/
inductive OfflineField where
  | obj (o : OfflineOptions)
  | prim (p : JSPrim)

/-- Truthiness of the `offline` property's value. -/
def OfflineField.truthy : OfflineField → Bool
  | .obj _ => true
  | .prim p => p.truthy

/-- `(typeof options.offline !== 'object') ? {} : options.offline`.  On the
reachable path `options.offline` is truthy, so the `.prim .null` case (where
the source would keep `null` and crash on the next property read) never
arises; it is mapped to the empty object. -/
def OfflineField.asOptions : OfflineField → OfflineOptions
  | .obj o => o
  | .prim _ => OfflineOptions.empty

/-- An options object: its `offline` property plus its remaining own
enumerable top-level properties (JavaScript object keys are unique). -/
structure OptionsObj where
  offline : OfflineField
  props : List (String × JSPrim)

/-- The `options` argument: a primitive (including `undefined` and `null`)
or an object. -/
inductive OptionsVal where
  | prim (p : JSPrim)
  | obj (o : OptionsObj)

/-- `options === undefined`. -/
def OptionsVal.isUndefined : OptionsVal → Bool
  | .prim .undefV => true
  | _ => false

/-- `typeof options === 'object'` — true exactly for `null` and objects. -/
def OptionsVal.typeofObject : OptionsVal → Bool
  | .prim .null => true
  | .obj _ => true
  | _ => false

/-- Truthiness of the whole options value. -/
def OptionsVal.truthy : OptionsVal → Bool
  | .prim p => p.truthy
  | .obj _ => true

/-- `options && options.offline` is truthy: the offline path is engaged. -/
def OptionsVal.offlineTruthy : OptionsVal → Bool
  | .obj o => o.offline.truthy
  | .prim _ => false

/-- A live HTTP response as delivered by the fetch primitive. -/
structure LiveResponse where
  status : Int
  statusText : String
  headers : List (String × String)
  body : String
deriving DecidableEq, Repr

/-- The persisted unit: the record serialized into storage.  Fields mirror the
object built at the `JSON.stringify` site of the source. -/
structure CacheRecord where
  status : Int
  statusText : String
  contentType : String
  content : String
  storedAt : Int
deriving DecidableEq, Repr

/-- A string held by the storage provider, symbolically: either the
serialization of a cache record (which `JSON.parse` recovers), or a string on
which `JSON.parse` throws. -/
inductive StoredVal where
  | recordStr (r : CacheRecord)
  | badStr (s : String)
deriving DecidableEq, Repr

/-- `JSON.parse` on a stored string, as the symbolic model sees it. -/
def jsonParse : StoredVal → Except String CacheRecord
  | .recordStr r => .ok r
  | .badStr s => .error ("SyntaxError: Unexpected token in JSON: " ++ s)

/-- What `storage.getItem(cacheKey)` produces: nothing (`null`), a string
(to be `JSON.parse`d), an already-structured record (a promise storage may
auto-parse), or a failure (a synchronous throw or a rejected promise — either
way the error propagates to the caller of `dispatch`). -/
inductive GetResult where
  | missing
  | raw (v : StoredVal)
  | parsed (r : CacheRecord)
  | failed (msg : String)
deriving DecidableEq, Repr

/-- Outcome of one call of the fetch primitive: a response, a rejection with an
error message, or `hang` — the call does not settle before the `promiseTimeout`
timer (for the wrapped first attempt the timer then rejects with
`'Promise Timed Out'`; an unwrapped hanging call never settles). -/
inductive FetchResult where
  | ok (r : LiveResponse)
  | err (msg : String)
  | hang
deriving DecidableEq, Repr

/-- The environment of one dispatch call: the outcome the fetch primitive gives
to the n-th fetch call issued by this dispatch, the storage read result, the
`navigator.onLine` flag (`none` = no navigator or no such property), the two
`Date.now()` readings (expiry check, record write), and whether the
fire-and-forget `setItem` would succeed. -/
structure Env where
  fetchResult : Nat → FetchResult
  getResult : GetResult
  onLine : Option Bool
  nowAtCheck : Int
  nowAtStore : Int
  setItemOk : Bool

/-- The same environment with the storage write succeeding or failing. -/
def Env.withSetItemOk (env : Env) (b : Bool) : Env :=
  { env with setItemOk := b }

/-- A response as the caller observes it. -/
structure RespVal where
  status : Int
  statusText : String
  headers : List (String × String)
  bodyText : String
deriving DecidableEq, Repr

/-- The settlement of the promise `dispatch` returns. -/
inductive Outcome where
  | resolved (r : RespVal)
  | rejected (msg : String)
  | pending
deriving DecidableEq, Repr

/-- Observable record of one dispatch call: its outcome, the storage keys read,
the writes attempted, the fetch calls issued (with their arguments), the retry
delays scheduled, and the caller's options value as left after the call
(the source mutates the object in place). -/
structure RunResult where
  outcome : Outcome
  gets : List String
  sets : List (String × StoredVal)
  fetchCalls : List (JSPrim × OptionsVal)
  delays : List Int
  optionsAfter : OptionsVal

/-- ASCII lowercase of a string, character by character. -/
def strLower (s : String) : String :=
  ⟨s.data.map Char.toLower⟩

/-- Case-insensitive header lookup, as the Fetch `Headers.get` API does. -/
def headerGet (headers : List (String × String)) (nm : String) : Option String :=
  (headers.find? (fun p => strLower p.1 == strLower nm)).map (fun p => p.2)

/-- `res.headers.get('Content-Type') || ''`. -/
def contentTypeOf (r : LiveResponse) : String :=
  (headerGet r.headers "Content-Type").getD ""

/-- Case-insensitive substring test: `s.match(/pat/i)` for a literal
pattern. -/
def containsCI (s pat : String) : Bool :=
  decide (List.IsInfix (strLower pat).data (strLower s).data)

/-- `contentType.match(/application\x2fjson/i) || contentType.match(/text\x2f/i)`. -/
def cacheableContentType (ct : String) : Bool :=
  containsCI ct "application/json" || containsCI ct "text/"

/-- `res.status >= 200 && res.status <= 299`. -/
def statusInRange (s : Int) : Bool :=
  decide (200 ≤ s) && decide (s ≤ 299)

/-- The condition under which the live response is handed to the cache codec. -/
def shouldCache (r : LiveResponse) : Bool :=
  statusInRange r.status && cacheableContentType (contentTypeOf r)

/-- Wrap an integer to the signed 32-bit range, as JavaScript `ToInt32`. -/
def toInt32 (n : Int) : Int :=
  (n + 2 ^ 31) % 2 ^ 32 - 2 ^ 31

/-- One step of `stringToHash`:
`hash = ((hash << 5) - hash) + char; hash = hash & hash`. -/
def hashStep (hash : Int) (c : Nat) : Int :=
  toInt32 (toInt32 (hash * 32) - hash + c)

/-- `stringToHash`: the 32-bit rolling hash of the source.  Characters are
taken as code points; on the BMP inputs considered these coincide with the
UTF-16 code units `charCodeAt` yields. -/
def stringToHash (value : String) : Int :=
  value.data.foldl (fun h c => hashStep h c.toNat) 0

/-- `'offline:' + stringToHash(method + '|' + url)`. -/
def requestHashOf (method : String) (url : JSPrim) : String :=
  "offline:" ++ toString (stringToHash (method ++ "|" ++ url.coerceToString))

/-- First value of an own property, `undefined` when absent. -/
def propLookup (props : List (String × JSPrim)) (k : String) : JSPrim :=
  ((props.find? (fun p => p.1 == k)).map (fun p => p.2)).getD .undefV

/-- `var method = options.method || 'GET';` (read before the null cleanup). -/
def resolveMethod (o : OptionsObj) : String :=
  let m := propLookup o.props "method"
  if m.truthy then m.coerceToString else "GET"

/-- `parseInt(given || 'dflt', 10)` for a numeric-or-absent option: a present
nonzero value wins; zero and absence fall to the default. -/
def resolveNum (given : Option Int) (dflt : Int) : Int :=
  match given with
  | some n => if n != 0 then n else dflt
  | none => dflt

/-- The resolved `retries` value (`parseInt(offlineOptions.retries || '-1')`). -/
def resolvedRetries (o : OptionsObj) : Int :=
  resolveNum o.offline.asOptions.retries (-1)

/-- The resolved `retryDelay` value. -/
def resolvedRetryDelay (o : OptionsObj) : Int :=
  resolveNum o.offline.asOptions.retryDelay (-1)

/-- The resolved `expires` value: the property when it is a number
(including `0`), else `-1`. -/
def resolvedExpires (o : OptionsObj) : Int :=
  o.offline.asOptions.expires.getD (-1)

/-- `var renew = (offlineOptions.renew === true);`. -/
def resolvedRenew (o : OptionsObj) : Bool :=
  o.offline.asOptions.renew == JSPrim.boolV true

/-- The effective cache key: the caller's generator when
`options.offline.cacheKeyGenerator` is a function, else the request hash. -/
def resolveCacheKey (o : OptionsObj) (url : JSPrim) (requestHash : String) : String :=
  match o.offline with
  | .obj oo =>
    match oo.cacheKeyGenerator with
    | some g => g url requestHash
    | none => requestHash
  | .prim _ => requestHash

/-- The cache key a dispatch of `url` with options `o` uses. -/
def dispatchCacheKey (o : OptionsObj) (url : JSPrim) : String :=
  resolveCacheKey o url (requestHashOf (resolveMethod o) url)

/-- The in-place null cleanup: every top-level property whose value is `null`
is deleted.  `offline` itself is truthy on the path where this runs, hence
never `null`, hence never deleted. -/
def cleanOptions (o : OptionsObj) : OptionsObj :=
  { offline := o.offline
    props := o.props.filter (fun p => !(p.2 == JSPrim.null)) }

/-- `var cacheExpired = (cachedItem && expires > 0)
  ? ((Date.now() - cachedItem.storedAt) > expires) : false;`
`nowCheck` is the `Date.now()` reading at this line. -/
def cacheExpiredB (nowCheck : Int) (o : OptionsObj) (r : CacheRecord) : Bool :=
  decide (resolvedExpires o > 0) && decide (nowCheck - r.storedAt > resolvedExpires o)

/-- Rehydrate a cached record as a `Response`
(`new Response(content, { status, statusText, headers: {'Content-Type': ...} })`). -/
def recordToResponse (r : CacheRecord) : RespVal :=
  ⟨r.status, r.statusText, [("Content-Type", r.contentType)], r.content⟩

/-- A live response, returned to the caller unchanged. -/
def liveToResponse (r : LiveResponse) : RespVal :=
  ⟨r.status, r.statusText, r.headers, r.body⟩

/-- The record the codec serializes for a cacheable live response. -/
def mkStoredRecord (r : LiveResponse) (ct : String) (now : Int) : CacheRecord :=
  ⟨r.status, r.statusText, ct, r.body, now⟩

/-- Outcome of one raw (unwrapped) fetch call. -/
def rawFetchOutcome : FetchResult → Outcome
  | .ok r => .resolved (liveToResponse r)
  | .err m => .rejected m
  | .hang => .pending

/-- A plain `fetch(url, options)` call, as a run: its settlement, one fetch
call, no storage traffic, the options untouched. -/
def plainFetch (env : Env) (url : JSPrim) (options : OptionsVal) : RunResult :=
  ⟨rawFetchOutcome (env.fetchResult 0), [], [], [(url, options)], [], options⟩

/-- The `wrappedFetch(n)` loop of `fetchRetry`: attempt, and on a rejection
retry after `delay` while `n > 0`, decrementing.  `f` gives the outcome of the
`idx`-th fetch call of the dispatch.  Returns the settlement, the number of
fetch calls made and the scheduled delays.  `fuel` bounds the recursion;
`retries.toNat + 1` is always enough. -/
def retryLoop (f : Nat → FetchResult) (idx : Nat) (n : Int) (delay : Int) :
    Nat → Outcome × Nat × List Int
  | 0 => (.pending, 0, [])
  | fuel + 1 =>
    match f idx with
    | .ok r => (.resolved (liveToResponse r), 1, [])
    | .hang => (.pending, 1, [])
    | .err m =>
      if n > 0 then
        let rest := retryLoop f (idx + 1) (n - 1) delay fuel
        (rest.1, rest.2.1 + 1, delay :: rest.2.2)
      else
        (.rejected m, 1, [])

/-- `fetchRetry(url, options, retries, retryDelay)`:
`retries = retries || 3; retryDelay = retryDelay || 1000;` then the wrapped
loop starting at `wrappedFetch(retries)`.  `idx` is the index of the first
fetch call this loop issues within the dispatch. -/
def fetchRetry (f : Nat → FetchResult) (idx : Nat) (retries retryDelay : Int) :
    Outcome × Nat × List Int :=
  let retries' := if retries != 0 then retries else 3
  let retryDelay' := if retryDelay != 0 then retryDelay else 1000
  retryLoop f idx retries' retryDelay' (retries'.toNat + 1)

/-- The `.catch` handler of the live attempt: a timeout with a cached response
yields the cached response; a non-timeout error with truthy `retries` enters
`fetchRetry`; anything else rejects with the original error. -/
def catchPath (f : Nat → FetchResult) (url : JSPrim) (optsVal : OptionsVal) (cacheKey : String)
    (cachedResponse : Option RespVal) (retries retryDelay : Int) (msg : String) : RunResult :=
  let timedout := msg == "Promise Timed Out"
  match cachedResponse, timedout with
  | some cr, true => ⟨.resolved cr, [cacheKey], [], [(url, optsVal)], [], optsVal⟩
  | _, _ =>
    if !timedout && retries != 0 then
      let res := fetchRetry f 1 retries retryDelay
      ⟨res.1, [cacheKey], [], (url, optsVal) :: List.replicate res.2.1 (url, optsVal),
        res.2.2, optsVal⟩
    else
      ⟨.rejected msg, [cacheKey], [], [(url, optsVal)], [], optsVal⟩

/-- The live attempt: `promiseTimeout(timeout, fetch(url, options))`, storing a
cacheable success fire-and-forget (the write's own success is never consulted),
and the catch handler on rejection.  A `hang` is the timer winning, surfacing
as the `'Promise Timed Out'` rejection.  `nowStore` is the `Date.now()` reading
at the write site. -/
def livePath (f : Nat → FetchResult) (nowStore : Int) (url : JSPrim) (optsVal : OptionsVal)
    (cacheKey : String) (cachedResponse : Option RespVal) (retries retryDelay : Int) : RunResult :=
  match f 0 with
  | .ok r =>
    let sets :=
      if shouldCache r then
        [(cacheKey, StoredVal.recordStr (mkStoredRecord r (contentTypeOf r) nowStore))]
      else []
    ⟨.resolved (liveToResponse r), [cacheKey], sets, [(url, optsVal)], [], optsVal⟩
  | .err m => catchPath f url optsVal cacheKey cachedResponse retries retryDelay m
  | .hang => catchPath f url optsVal cacheKey cachedResponse retries retryDelay "Promise Timed Out"

/-- After the storage read parsed (or found nothing): build the cached
response, decide freshness, and either serve the cache (offline, or fresh and
not renewing) or go live. -/
def afterRead (f : Nat → FetchResult) (onLine : Option Bool) (nowCheck nowStore : Int)
    (url : JSPrim) (o : OptionsObj) (cacheKey : String)
    (cachedItem : Option CacheRecord) : RunResult :=
  let optsVal := OptionsVal.obj (cleanOptions o)
  let isOffline := onLine == some false
  match cachedItem with
  | some r =>
    if isOffline then
      ⟨.resolved (recordToResponse r), [cacheKey], [], [], [], optsVal⟩
    else if !cacheExpiredB nowCheck o r && !resolvedRenew o then
      ⟨.resolved (recordToResponse r), [cacheKey], [], [], [], optsVal⟩
    else
      livePath f nowStore url optsVal cacheKey (some (recordToResponse r))
        (resolvedRetries o) (resolvedRetryDelay o)
  | none =>
    livePath f nowStore url optsVal cacheKey none (resolvedRetries o) (resolvedRetryDelay o)

/-- The offline-engaged core: resolve configuration and the cache key, clean
the options in place, read the storage and continue.  A read failure, or a
stored string `JSON.parse` rejects, propagates to the caller. -/
def offlineCore (f : Nat → FetchResult) (g : GetResult) (onLine : Option Bool)
    (nowCheck nowStore : Int) (url : JSPrim) (o : OptionsObj) : RunResult :=
  let cacheKey := dispatchCacheKey o url
  let optsVal := OptionsVal.obj (cleanOptions o)
  match g with
  | .failed msg => ⟨.rejected msg, [cacheKey], [], [], [], optsVal⟩
  | .missing => afterRead f onLine nowCheck nowStore url o cacheKey none
  | .raw v =>
    match jsonParse v with
    | .error msg => ⟨.rejected msg, [cacheKey], [], [], [], optsVal⟩
    | .ok r => afterRead f onLine nowCheck nowStore url o cacheKey (some r)
  | .parsed r => afterRead f onLine nowCheck nowStore url o cacheKey (some r)

/-- `offlineFetch(url, options)`: argument validation, then the plain path when
the offline option is not engaged, else the offline core.  Note the core
consults every part of the environment except `setItemOk`: the source discards
the result of the fire-and-forget `setItem`. -/
def offlineFetch (env : Env) (url : JSPrim) (options : OptionsVal) : RunResult :=
  if !url.truthy then
    ⟨.rejected "Please provide a URL", [], [], [], [], options⟩
  else if !options.isUndefined && !options.typeofObject then
    ⟨.rejected "If defined, options must be of type object", [], [], [], [], options⟩
  else
    match options with
    | .prim p => plainFetch env url (.prim p)
    | .obj o =>
      if !o.offline.truthy then plainFetch env url (.obj o)
      else offlineCore env.fetchResult env.getResult env.onLine env.nowAtCheck env.nowAtStore url o

/-! ### Concrete fixtures used by witnesses and counterexamples -/

/-- A cacheable live response: status 200, `Content-Type: text/html`. -/
def htmlOk : LiveResponse := ⟨200, "OK", [("Content-Type", "text/html")], "fresh content"⟩

/-- A successful but non-cacheable live response (binary content type). -/
def pngOk : LiveResponse := ⟨200, "OK", [("Content-Type", "image/png")], "binary-bytes"⟩

/-- A cached record, stored at epoch-millisecond 500. -/
def cachedRec : CacheRecord := ⟨200, "OK", "text/html", "cached content", 500⟩

/-- A concrete non-empty URL. -/
def urlEx : JSPrim := .strV "http://example.com"

/-- `{ offline: true }` as an options object. -/
def offTrueObj : OptionsObj := ⟨.prim (.boolV true), []⟩

/-- `{ offline: true }` as an options value. -/
def optsOfflineTrue : OptionsVal := .obj offTrueObj

/-- Online environment: every fetch succeeds with `htmlOk`, nothing cached. -/
def envLiveOk : Env := ⟨fun _ => .ok htmlOk, .missing, some true, 1000, 2000, true⟩

/-- Online environment: every fetch succeeds with the non-cacheable `pngOk`. -/
def envPng : Env := ⟨fun _ => .ok pngOk, .missing, some true, 1000, 2000, true⟩

/-- Online environment holding `cachedRec` (serialized), long after it was
stored; a live fetch would succeed with fresh content. -/
def envCachedOnline : Env :=
  ⟨fun _ => .ok htmlOk, .raw (.recordStr cachedRec), some true, 1000000, 1000001, true⟩

/-- Offline environment (`navigator.onLine === false`) holding `cachedRec`. -/
def envCachedOffline : Env :=
  ⟨fun _ => .ok htmlOk, .parsed cachedRec, some false, 1000, 2000, true⟩

/-- Online environment where every fetch call fails with a non-timeout error
("first fail" for the first call, "retry fail" afterwards), nothing cached. -/
def envAllFail : Env :=
  ⟨fun n => .err (if n == 0 then "first fail" else "retry fail"), .missing, some true, 0, 0, true⟩

/-- Online environment where the first fetch fails and every later one
succeeds with the cacheable `htmlOk`, nothing cached. -/
def envRetryThenOk : Env :=
  ⟨fun n => if n == 0 then .err "connection refused" else .ok htmlOk,
    .missing, some true, 1000, 2000, true⟩

/-- Online environment where every fetch call fails with the same non-timeout
error, nothing cached. -/
def envNetDown : Env :=
  ⟨fun _ => .err "net down", .missing, some true, 0, 0, true⟩

/-- Environment whose storage holds a string `JSON.parse` rejects; a live
fetch would succeed. -/
def envBadStored : Env :=
  ⟨fun _ => .ok htmlOk, .raw (.badStr "not-json"), some true, 1000, 2000, true⟩

/-- Environment whose storage read itself fails. -/
def envGetFail : Env :=
  ⟨fun _ => .ok htmlOk, .failed "storage exploded", some true, 1000, 2000, true⟩

/-- Online environment where every fetch hangs past the timeout, with
`cachedRec` stored. -/
def envHangCache : Env := ⟨fun _ => .hang, .parsed cachedRec, some true, 1000, 2000, true⟩

/-- Online environment where every fetch hangs past the timeout, nothing
cached. -/
def envHangNone : Env := ⟨fun _ => .hang, .missing, some true, 1000, 2000, true⟩

/-- `{ offline: { renew: true } }`. -/
def oRenew : OptionsObj :=
  ⟨.obj { OfflineOptions.empty with renew := .boolV true }, []⟩

/-- `{ offline: { retries: 2, retryDelay: 7 } }`. -/
def oRetry2 : OptionsObj :=
  ⟨.obj { OfflineOptions.empty with retries := some 2, retryDelay := some 7 }, []⟩

/-- Options with a `null`-valued top-level property next to a normal one. -/
def oNullProps : OptionsObj :=
  ⟨.prim (.boolV true), [("body", .null), ("method", .strV "POST")]⟩

/-- An options object with the offline property absent. -/
def oNoOffline : OptionsObj := ⟨.prim .undefV, [("method", .strV "POST")]⟩

/-! ### Helper lemmas -/

/-- The catch handler, written as a decision tree: timeout with a cache serves
the cache, timeout without one rejects, a non-timeout error with truthy
retries enters the retry loop, anything else rejects. -/
lemma catchPath_eq (f : Nat → FetchResult) (url : JSPrim) (v : OptionsVal) (key : String)
    (c : Option RespVal) (n d : Int) (m : String) :
    catchPath f url v key c n d m =
      if m == "Promise Timed Out" then
        (match c with
          | some cr => ⟨.resolved cr, [key], [], [(url, v)], [], v⟩
          | none => ⟨.rejected m, [key], [], [(url, v)], [], v⟩)
      else if n != 0 then
        ⟨(fetchRetry f 1 n d).1, [key], [],
          (url, v) :: List.replicate (fetchRetry f 1 n d).2.1 (url, v),
          (fetchRetry f 1 n d).2.2, v⟩
      else ⟨.rejected m, [key], [], [(url, v)], [], v⟩ := by
  unfold catchPath
  rcases c with _ | cr <;> cases h : (m == "Promise Timed Out") <;> simp [h]

/-- The catch handler never writes to storage. -/
lemma catchPath_sets (f : Nat → FetchResult) (url : JSPrim) (v : OptionsVal) (key : String)
    (c : Option RespVal) (n d : Int) (m : String) :
    (catchPath f url v key c n d m).sets = [] := by
  rw [catchPath_eq]
  split
  · rcases c with _ | cr <;> rfl
  · split <;> rfl

/-- The catch handler leaves the (cleaned) options value as is. -/
lemma catchPath_optionsAfter (f : Nat → FetchResult) (url : JSPrim) (v : OptionsVal)
    (key : String) (c : Option RespVal) (n d : Int) (m : String) :
    (catchPath f url v key c n d m).optionsAfter = v := by
  rw [catchPath_eq]
  split
  · rcases c with _ | cr <;> rfl
  · split <;> rfl

/-- Every fetch call the catch handler issues carries `(url, v)`. -/
lemma catchPath_fetchCalls_mem (f : Nat → FetchResult) (url : JSPrim) (v : OptionsVal)
    (key : String) (c : Option RespVal) (n d : Int) (m : String) :
    ∀ x ∈ (catchPath f url v key c n d m).fetchCalls, x = (url, v) := by
  rw [catchPath_eq]
  split
  · rcases c with _ | cr <;> simp
  · split
    · intro x hx
      rcases List.mem_cons.mp hx with h | h
      · exact h
      · exact List.eq_of_mem_replicate h
    · simp

/-- The live path never writes unless the first attempt succeeded with a
cacheable response, and then it writes exactly the serialized record. -/
lemma livePath_sets_eq (f : Nat → FetchResult) (ns : Int) (url : JSPrim) (v : OptionsVal)
    (key : String) (c : Option RespVal) (n d : Int) :
    (livePath f ns url v key c n d).sets =
      match f 0 with
      | .ok r =>
        if shouldCache r then
          [(key, StoredVal.recordStr (mkStoredRecord r (contentTypeOf r) ns))]
        else []
      | .err _ => []
      | .hang => [] := by
  unfold livePath
  cases h : f 0 with
  | ok r => split <;> simp_all
  | err m => simp [catchPath_sets]
  | hang => simp [catchPath_sets]

/-- The live path leaves the options value as is. -/
lemma livePath_optionsAfter (f : Nat → FetchResult) (ns : Int) (url : JSPrim) (v : OptionsVal)
    (key : String) (c : Option RespVal) (n d : Int) :
    (livePath f ns url v key c n d).optionsAfter = v := by
  unfold livePath
  cases h : f 0 with
  | ok r => rfl
  | err m => exact catchPath_optionsAfter f url v key c n d m
  | hang => exact catchPath_optionsAfter f url v key c n d "Promise Timed Out"

/-- Every fetch call the live path issues carries `(url, v)`. -/
lemma livePath_fetchCalls_mem (f : Nat → FetchResult) (ns : Int) (url : JSPrim)
    (v : OptionsVal) (key : String) (c : Option RespVal) (n d : Int) :
    ∀ x ∈ (livePath f ns url v key c n d).fetchCalls, x = (url, v) := by
  unfold livePath
  cases h : f 0 with
  | ok r => simp
  | err m => exact catchPath_fetchCalls_mem f url v key c n d m
  | hang => exact catchPath_fetchCalls_mem f url v key c n d "Promise Timed Out"

/-- Validation passed and the offline option engaged: the dispatcher runs the
offline core. -/
lemma offlineFetch_engaged (env : Env) (url : JSPrim) (o : OptionsObj)
    (hu : url.truthy = true) (ho : o.offline.truthy = true) :
    offlineFetch env url (.obj o)
      = offlineCore env.fetchResult env.getResult env.onLine env.nowAtCheck env.nowAtStore url o := by
  unfold offlineFetch
  simp [hu, ho, OptionsVal.isUndefined, OptionsVal.typeofObject]

/-- The resolved `retries` value is never zero (zero and absence both resolve
to `-1`), so the `if (!timedout && retries)` test always passes. -/
lemma resolvedRetries_ne_zero (o : OptionsObj) : resolvedRetries o ≠ 0 := by
  unfold resolvedRetries resolveNum
  cases h : o.offline.asOptions.retries with
  | none => decide
  | some n =>
    by_cases hn : n = 0 <;> simp [hn]

/-- The resolved `retryDelay` value is never zero either. -/
lemma resolvedRetryDelay_ne_zero (o : OptionsObj) : resolvedRetryDelay o ≠ 0 := by
  unfold resolvedRetryDelay resolveNum
  cases h : o.offline.asOptions.retryDelay with
  | none => decide
  | some n =>
    by_cases hn : n = 0 <;> simp [hn]

/-- After the read, whatever happens, the caller's options value ends up as
the cleaned object. -/
lemma afterRead_optionsAfter (f : Nat → FetchResult) (onLine : Option Bool)
    (nc ns : Int) (url : JSPrim) (o : OptionsObj) (key : String)
    (ci : Option CacheRecord) :
    (afterRead f onLine nc ns url o key ci).optionsAfter = .obj (cleanOptions o) := by
  cases ci with
  | none =>
    simp only [afterRead]
    apply livePath_optionsAfter
  | some r =>
    simp only [afterRead]
    split
    · rfl
    · split
      · rfl
      · apply livePath_optionsAfter

/-- Every fetch call made after the read carries the url and the cleaned
options. -/
lemma afterRead_fetchCalls_mem (f : Nat → FetchResult) (onLine : Option Bool)
    (nc ns : Int) (url : JSPrim) (o : OptionsObj) (key : String)
    (ci : Option CacheRecord) :
    ∀ x ∈ (afterRead f onLine nc ns url o key ci).fetchCalls,
      x = (url, .obj (cleanOptions o)) := by
  cases ci with
  | none =>
    simp only [afterRead]
    apply livePath_fetchCalls_mem
  | some r =>
    simp only [afterRead]
    split
    · simp
    · split
      · simp
      · apply livePath_fetchCalls_mem

/-- After the read, a write can only be the serialization of a cacheable first
live attempt. -/
lemma afterRead_sets_sub (f : Nat → FetchResult) (onLine : Option Bool)
    (nc ns : Int) (url : JSPrim) (o : OptionsObj) (key : String)
    (ci : Option CacheRecord) :
    ∀ k v, (k, v) ∈ (afterRead f onLine nc ns url o key ci).sets →
      ∃ r, f 0 = .ok r ∧ shouldCache r = true ∧ k = key ∧
        v = .recordStr (mkStoredRecord r (contentTypeOf r) ns) := by
  have hl : ∀ c n d, ∀ k v, (k, v) ∈ (livePath f ns url (.obj (cleanOptions o)) key c n d).sets →
      ∃ r, f 0 = .ok r ∧ shouldCache r = true ∧ k = key ∧
        v = .recordStr (mkStoredRecord r (contentTypeOf r) ns) := by
    intro c n d k v hv
    rw [livePath_sets_eq] at hv
    cases hf : f 0 with
    | ok r =>
      rw [hf] at hv
      by_cases hs : shouldCache r = true
      · simp [hs] at hv
        exact ⟨r, rfl, hs, hv.1, hv.2⟩
      · simp [hs] at hv
    | err m => rw [hf] at hv; simp at hv
    | hang => rw [hf] at hv; simp at hv
  cases ci with
  | none =>
    simp only [afterRead]
    exact hl none (resolvedRetries o) (resolvedRetryDelay o)
  | some r =>
    simp only [afterRead]
    split
    · simp
    · split
      · simp
      · exact hl (some (recordToResponse r)) (resolvedRetries o) (resolvedRetryDelay o)

/-- A dispatch is one of: the two validation rejections, a plain fetch, or the
engaged offline core. -/
lemma offlineFetch_cases (env : Env) (url : JSPrim) (options : OptionsVal) :
    offlineFetch env url options
        = ⟨.rejected "Please provide a URL", [], [], [], [], options⟩ ∨
    offlineFetch env url options
        = ⟨.rejected "If defined, options must be of type object", [], [], [], [], options⟩ ∨
    offlineFetch env url options = plainFetch env url options ∨
    ∃ o, options = .obj o ∧ o.offline.truthy = true ∧
      offlineFetch env url options
        = offlineCore env.fetchResult env.getResult env.onLine env.nowAtCheck env.nowAtStore url o := by
  by_cases hu : url.truthy = true
  · by_cases hv : (!options.isUndefined && !options.typeofObject) = true
    · refine Or.inr (Or.inl ?_)
      unfold offlineFetch
      simp [hu, hv]
    · have hv' : (!options.isUndefined && !options.typeofObject) = false := by
        revert hv
        cases (!options.isUndefined && !options.typeofObject) <;> simp
      cases options with
      | prim p =>
        refine Or.inr (Or.inr (Or.inl ?_))
        unfold offlineFetch
        simp [hu, hv']
      | obj o =>
        by_cases ho : o.offline.truthy = true
        · exact Or.inr (Or.inr (Or.inr ⟨o, rfl, ho, offlineFetch_engaged env url o hu ho⟩))
        · refine Or.inr (Or.inr (Or.inl ?_))
          have ho' : o.offline.truthy = false := by
            revert ho
            cases o.offline.truthy <;> simp
          unfold offlineFetch
          simp [hu, hv', ho']
  · refine Or.inl ?_
    have hu' : url.truthy = false := by
      revert hu
      cases url.truthy <;> simp
    unfold offlineFetch
    simp [hu']

/-- After the read, when the first live attempt succeeded with a
non-cacheable response: nothing is written, and if a fetch call was issued at
all the dispatch resolved with that live response. -/
lemma afterRead_ok_notcacheable (f : Nat → FetchResult) (onLine : Option Bool)
    (nc ns : Int) (url : JSPrim) (o : OptionsObj) (key : String)
    (ci : Option CacheRecord) (r : LiveResponse)
    (hok : f 0 = .ok r) (hbad : shouldCache r = false) :
    (afterRead f onLine nc ns url o key ci).sets = [] ∧
    ((afterRead f onLine nc ns url o key ci).fetchCalls ≠ [] →
      (afterRead f onLine nc ns url o key ci).outcome = .resolved (liveToResponse r)) := by
  have hl : ∀ c n d,
      (livePath f ns url (.obj (cleanOptions o)) key c n d).sets = [] ∧
      (livePath f ns url (.obj (cleanOptions o)) key c n d).outcome
        = .resolved (liveToResponse r) := by
    intro c n d
    unfold livePath
    rw [hok]
    simp [hbad]
  cases ci with
  | none =>
    simp only [afterRead]
    exact ⟨(hl _ _ _).1, fun _ => (hl _ _ _).2⟩
  | some rc =>
    simp only [afterRead]
    split
    · exact ⟨rfl, by intro hne; simp at hne⟩
    · split
      · exact ⟨rfl, by intro hne; simp at hne⟩
      · exact ⟨(hl _ _ _).1, fun _ => (hl _ _ _).2⟩

/-- After the read, when the first live attempt succeeded with a cacheable
response: if a fetch call was issued at all, exactly the fresh record was
written under the key and the live response was returned. -/
lemma afterRead_ok_cacheable (f : Nat → FetchResult) (onLine : Option Bool)
    (nc ns : Int) (url : JSPrim) (o : OptionsObj) (key : String)
    (ci : Option CacheRecord) (r : LiveResponse)
    (hok : f 0 = .ok r) (hgood : shouldCache r = true) :
    (afterRead f onLine nc ns url o key ci).fetchCalls ≠ [] →
    (afterRead f onLine nc ns url o key ci).sets
        = [(key, .recordStr (mkStoredRecord r (contentTypeOf r) ns))] ∧
    (afterRead f onLine nc ns url o key ci).outcome = .resolved (liveToResponse r) := by
  have hl : ∀ c n d,
      (livePath f ns url (.obj (cleanOptions o)) key c n d).sets
          = [(key, .recordStr (mkStoredRecord r (contentTypeOf r) ns))] ∧
      (livePath f ns url (.obj (cleanOptions o)) key c n d).outcome
        = .resolved (liveToResponse r) := by
    intro c n d
    unfold livePath
    rw [hok]
    simp [hgood]
  cases ci with
  | none =>
    simp only [afterRead]
    exact fun _ => hl _ _ _
  | some rc =>
    simp only [afterRead]
    split
    · intro hne; simp at hne
    · split
      · intro hne; simp at hne
      · exact fun _ => hl _ _ _

/-- After the read, when the first live attempt failed, nothing is ever
written — in particular not when a retry succeeds. -/
lemma afterRead_err_sets (f : Nat → FetchResult) (onLine : Option Bool)
    (nc ns : Int) (url : JSPrim) (o : OptionsObj) (key : String)
    (ci : Option CacheRecord) (m : String) (herr : f 0 = .err m) :
    (afterRead f onLine nc ns url o key ci).sets = [] := by
  have hl : ∀ c n d, (livePath f ns url (.obj (cleanOptions o)) key c n d).sets = [] := by
    intro c n d
    rw [livePath_sets_eq, herr]
  cases ci with
  | none =>
    simp only [afterRead]
    exact hl _ _ _
  | some rc =>
    simp only [afterRead]
    split
    · rfl
    · split
      · rfl
      · exact hl _ _ _

/-- One unfolding of the retry loop at a successor fuel value. -/
lemma retryLoop_succ (f : Nat → FetchResult) (idx : Nat) (n delay : Int) (fuel : Nat) :
    retryLoop f idx n delay (fuel + 1)
      = match f idx with
        | .ok r => (.resolved (liveToResponse r), 1, [])
        | .hang => (.pending, 1, [])
        | .err m =>
          if n > 0 then
            let rest := retryLoop f (idx + 1) (n - 1) delay fuel
            (rest.1, rest.2.1 + 1, delay :: rest.2.2)
          else (.rejected m, 1, []) := rfl

/-- The `wrappedFetch` loop when every attempt rejects: with counter `n` it
makes `n.toNat + 1` attempts, schedules `n.toNat` delays, and rejects with
the error of the last attempt. -/
lemma retryLoop_all_err (f : Nat → FetchResult) (msgs : Nat → String) (delay : Int)
    (hf : ∀ j, f j = .err (msgs j)) :
    ∀ (k : Nat) (n : Int) (idx : Nat), n.toNat = k →
      retryLoop f idx n delay (k + 1)
        = (.rejected (msgs (idx + k)), k + 1, List.replicate k delay) := by
  intro k
  induction k with
  | zero =>
    intro n idx hk
    have hn : ¬ n > 0 := by omega
    rw [retryLoop_succ, hf idx]
    simp [hn]
  | succ k ih =>
    intro n idx hk
    have hn : n > 0 := by omega
    have hn1 : (n - 1).toNat = k := by omega
    rw [retryLoop_succ, hf idx]
    simp only [if_pos hn]
    rw [ih (n - 1) (idx + 1) hn1]
    have hidx : idx + 1 + k = idx + (k + 1) := by omega
    simp [hidx, List.replicate_succ]

/-- `fetchRetry` when every attempt rejects and both resolved knobs are
nonzero (so its internal `|| 3` and `|| 1000` defaults are dead). -/
lemma fetchRetry_all_err (f : Nat → FetchResult) (msgs : Nat → String)
    (hf : ∀ j, f j = .err (msgs j)) (retries delay : Int)
    (hr : retries ≠ 0) (hd : delay ≠ 0) (idx : Nat) :
    fetchRetry f idx retries delay
      = (.rejected (msgs (idx + retries.toNat)), retries.toNat + 1,
          List.replicate retries.toNat delay) := by
  unfold fetchRetry
  have hr' : (retries != 0) = true := by simpa using hr
  have hd' : (delay != 0) = true := by simpa using hd
  simp only [hr', hd', if_true]
  exact retryLoop_all_err f msgs delay hf retries.toNat retries idx rfl

/-- Any write the offline core makes is the fresh serialization of a
cacheable first live attempt, stored under the dispatch's cache key. -/
lemma offlineCore_sets_sub (f : Nat → FetchResult) (g : GetResult) (onLine : Option Bool)
    (nc ns : Int) (url : JSPrim) (o : OptionsObj) :
    ∀ k v, (k, v) ∈ (offlineCore f g onLine nc ns url o).sets →
      ∃ r, f 0 = .ok r ∧ shouldCache r = true ∧ k = dispatchCacheKey o url ∧
        v = .recordStr (mkStoredRecord r (contentTypeOf r) ns) := by
  intro k v hv
  cases g with
  | failed m => simp [offlineCore] at hv
  | missing =>
    simp only [offlineCore] at hv
    exact afterRead_sets_sub f onLine nc ns url o _ _ k v hv
  | raw sv =>
    cases hj : jsonParse sv with
    | error m =>
      simp only [offlineCore, hj] at hv
      simp at hv
    | ok r' =>
      simp only [offlineCore, hj] at hv
      exact afterRead_sets_sub f onLine nc ns url o _ _ k v hv
  | parsed r' =>
    simp only [offlineCore] at hv
    exact afterRead_sets_sub f onLine nc ns url o _ _ k v hv

/-- The offline core, when the first live attempt succeeded with a
non-cacheable response: nothing is written, and if any fetch call was issued
the dispatch resolved with that live response. -/
lemma offlineCore_ok_notcacheable (f : Nat → FetchResult) (g : GetResult)
    (onLine : Option Bool) (nc ns : Int) (url : JSPrim) (o : OptionsObj) (r : LiveResponse)
    (hok : f 0 = .ok r) (hbad : shouldCache r = false) :
    (offlineCore f g onLine nc ns url o).sets = [] ∧
    ((offlineCore f g onLine nc ns url o).fetchCalls ≠ [] →
      (offlineCore f g onLine nc ns url o).outcome = .resolved (liveToResponse r)) := by
  cases g with
  | failed m => simp [offlineCore]
  | missing =>
    simp only [offlineCore]
    exact afterRead_ok_notcacheable f onLine nc ns url o _ _ r hok hbad
  | raw sv =>
    cases hj : jsonParse sv with
    | error m => simp [offlineCore, hj]
    | ok r' =>
      simp only [offlineCore, hj]
      exact afterRead_ok_notcacheable f onLine nc ns url o _ _ r hok hbad
  | parsed r' =>
    simp only [offlineCore]
    exact afterRead_ok_notcacheable f onLine nc ns url o _ _ r hok hbad

/-- The offline core, when the first live attempt succeeded with a cacheable
response and any fetch call was issued: the fresh record was written under the
dispatch's key and the live response returned. -/
lemma offlineCore_ok_cacheable (f : Nat → FetchResult) (g : GetResult)
    (onLine : Option Bool) (nc ns : Int) (url : JSPrim) (o : OptionsObj) (r : LiveResponse)
    (hok : f 0 = .ok r) (hgood : shouldCache r = true) :
    (offlineCore f g onLine nc ns url o).fetchCalls ≠ [] →
    (offlineCore f g onLine nc ns url o).sets
        = [(dispatchCacheKey o url, .recordStr (mkStoredRecord r (contentTypeOf r) ns))] ∧
    (offlineCore f g onLine nc ns url o).outcome = .resolved (liveToResponse r) := by
  cases g with
  | failed m => exact fun hne => by simp [offlineCore] at hne
  | missing =>
    simp only [offlineCore]
    exact afterRead_ok_cacheable f onLine nc ns url o _ _ r hok hgood
  | raw sv =>
    cases hj : jsonParse sv with
    | error m =>
      simp only [offlineCore, hj]
      exact fun hne => by simp at hne
    | ok r' =>
      simp only [offlineCore, hj]
      exact afterRead_ok_cacheable f onLine nc ns url o _ _ r hok hgood
  | parsed r' =>
    simp only [offlineCore]
    exact afterRead_ok_cacheable f onLine nc ns url o _ _ r hok hgood

/-- The offline core never writes when the first live attempt rejected. -/
lemma offlineCore_err_sets (f : Nat → FetchResult) (g : GetResult)
    (onLine : Option Bool) (nc ns : Int) (url : JSPrim) (o : OptionsObj) (m : String)
    (herr : f 0 = .err m) :
    (offlineCore f g onLine nc ns url o).sets = [] := by
  cases g with
  | failed m' => rfl
  | missing =>
    simp only [offlineCore]
    exact afterRead_err_sets f onLine nc ns url o _ _ m herr
  | raw sv =>
    cases hj : jsonParse sv with
    | error m' => simp [offlineCore, hj]
    | ok r' =>
      simp only [offlineCore, hj]
      exact afterRead_err_sets f onLine nc ns url o _ _ m herr
  | parsed r' =>
    simp only [offlineCore]
    exact afterRead_err_sets f onLine nc ns url o _ _ m herr

/-! ### Claim theorems -/

/-- C1: the spec (and the repository's README and test suite) require every
offline-engaged response to carry `x-offline-cache: HIT|MISS`, but the
dispatcher never injects such a header.  At a concrete offline-engaged call
the live (`MISS`-eligible) response comes back with its original headers only,
and the cache-served (`HIT`-eligible) response carries only `Content-Type` —
in both cases `headers.get('x-offline-cache')` is `null`. -/
theorem claim_C1_header_never_injected :
    (offlineFetch envLiveOk urlEx optsOfflineTrue).outcome
        = .resolved (liveToResponse htmlOk) ∧
    headerGet (liveToResponse htmlOk).headers "x-offline-cache" = none ∧
    (offlineFetch envCachedOffline urlEx optsOfflineTrue).outcome
        = .resolved (recordToResponse cachedRec) ∧
    headerGet (recordToResponse cachedRec).headers "x-offline-cache" = none := by
  refine ⟨by decide, by decide, by decide, by decide⟩

/-- C2: with `expires` left at its default `-1` the dispatcher is claimed to
always revalidate, but in the code `cacheExpired` is `false` whenever
`expires <= 0`, so the fresh-cache branch serves any existing record without
any live fetch: at a concrete online call with a record stored long ago and
all options defaulted, the cached record is returned and no fetch call is
issued (the code here contradicts its own comments, which say `-1` "checks
for new content on each request"). -/
theorem claim_C2_default_expires_serves_cache :
    resolvedExpires offTrueObj = -1 ∧
    resolvedRenew offTrueObj = false ∧
    (offlineFetch envCachedOnline urlEx optsOfflineTrue).outcome
        = .resolved (recordToResponse cachedRec) ∧
    (offlineFetch envCachedOnline urlEx optsOfflineTrue).fetchCalls.length = 0 := by
  refine ⟨by decide, by decide, by decide, by decide⟩

/-- C9 (counterexample): the claim says dispatch rejects whenever `url` is not
a non-empty string, but the check is a bare truthiness test: a truthy
non-string such as the number `123` passes validation and is fetched. -/
theorem claim_C9_truthy_nonstring_url :
    (offlineFetch envLiveOk (.numV 123) (.prim .undefV)).outcome
        = .resolved (liveToResponse htmlOk) ∧
    (offlineFetch envLiveOk (.numV 123) (.prim .undefV)).fetchCalls.length = 1 := by
  refine ⟨by decide, by decide⟩

/-- C9 (amended): dispatch rejects immediately — with no fetch call and no
storage access — exactly when `url` is falsy (`undefined`, `null`, `false`,
`0`, or the empty string), or when `url` is truthy and `options` is defined
but not of object type. -/
theorem claim_C9_validation (env : Env) (url : JSPrim) (options : OptionsVal) :
    (url.truthy = false →
      offlineFetch env url options
        = ⟨.rejected "Please provide a URL", [], [], [], [], options⟩) ∧
    (url.truthy = true → options.isUndefined = false → options.typeofObject = false →
      offlineFetch env url options
        = ⟨.rejected "If defined, options must be of type object", [], [], [], [], options⟩) := by
  constructor
  · intro h
    simp [offlineFetch, h]
  · intro h1 h2 h3
    simp [offlineFetch, h1, h2, h3]

/-- C9 (witness): an empty-string URL rejects with the URL error touching
nothing; a boolean options value rejects with the options error. -/
theorem claim_C9_validation_witness :
    (JSPrim.strV "").truthy = false ∧
    (offlineFetch envLiveOk (.strV "") (.prim .undefV)).outcome = .rejected "Please provide a URL" ∧
    (offlineFetch envLiveOk (.strV "") (.prim .undefV)).gets.length = 0 ∧
    (offlineFetch envLiveOk (.strV "") (.prim .undefV)).fetchCalls.length = 0 ∧
    (offlineFetch envLiveOk urlEx (.prim (.boolV false))).outcome
        = .rejected "If defined, options must be of type object" := by
  have h1 := (claim_C9_validation envLiveOk (.strV "") (.prim .undefV)).1 (by decide)
  have h2 := (claim_C9_validation envLiveOk urlEx (.prim (.boolV false))).2
    (by decide) (by decide) (by decide)
  refine ⟨by decide, by rw [h1], by rw [h1]; rfl, by rw [h1]; rfl, by rw [h2]⟩

/-- C8 (counterexample): the claim quantifies over every options value lacking
a truthy `offline` property, but a defined non-object options value (here the
number `5`) is rejected by validation while the plain fetch primitive would
have proceeded — so dispatch is not observationally identical to it there. -/
theorem claim_C8_nonobject_options :
    (OptionsVal.prim (.numV 5)).offlineTruthy = false ∧
    (offlineFetch envLiveOk urlEx (.prim (.numV 5))).outcome
        = .rejected "If defined, options must be of type object" ∧
    (plainFetch envLiveOk urlEx (.prim (.numV 5))).outcome = .resolved (liveToResponse htmlOk) ∧
    (offlineFetch envLiveOk urlEx (.prim (.numV 5))).outcome
        ≠ (plainFetch envLiveOk urlEx (.prim (.numV 5))).outcome := by
  refine ⟨by decide, by decide, by decide, by decide⟩

/-- C8 (amended): for every non-empty URL and every options value that is
`undefined`, `null`, or an object without a truthy `offline` property,
dispatch is the plain live fetch: same settlement, one fetch call with the
same arguments, no storage access, no header injected, options untouched. -/
theorem claim_C8_plain_equiv (env : Env) (s : String) (options : OptionsVal)
    (hs : s ≠ "")
    (hty : options.isUndefined = true ∨ options.typeofObject = true)
    (hoff : options.offlineTruthy = false) :
    offlineFetch env (.strV s) options = plainFetch env (.strV s) options := by
  cases options with
  | prim p =>
    cases p <;>
      simp_all [offlineFetch, OptionsVal.isUndefined, OptionsVal.typeofObject,
        OptionsVal.offlineTruthy, JSPrim.truthy]
  | obj o =>
    simp_all [offlineFetch, OptionsVal.isUndefined, OptionsVal.typeofObject,
      OptionsVal.offlineTruthy, JSPrim.truthy]

/-- C8 (witness): an options object whose `offline` property is absent runs as
a plain fetch. -/
theorem claim_C8_plain_equiv_witness :
    ("http://example.com" ≠ "") ∧
    (OptionsVal.obj oNoOffline).typeofObject = true ∧
    (OptionsVal.obj oNoOffline).offlineTruthy = false ∧
    offlineFetch envLiveOk (.strV "http://example.com") (.obj oNoOffline)
      = plainFetch envLiveOk (.strV "http://example.com") (.obj oNoOffline) := by
  refine ⟨by decide, by decide, by decide, ?_⟩
  exact claim_C8_plain_equiv envLiveOk "http://example.com" (.obj oNoOffline)
    (by decide) (Or.inr (by decide)) (by decide)

/-- C4 (counterexample): a cached string that does not parse is claimed to be
treated as "no cached record", but `JSON.parse` throws inside the read
continuation and the dispatch promise rejects — unlike the identical
environment with nothing cached, which resolves with the live response. -/
theorem claim_C4_read_failure_surfaced :
    (offlineFetch envBadStored urlEx optsOfflineTrue).outcome
        = .rejected "SyntaxError: Unexpected token in JSON: not-json" ∧
    (offlineFetch envLiveOk urlEx optsOfflineTrue).outcome = .resolved (liveToResponse htmlOk) ∧
    (offlineFetch envBadStored urlEx optsOfflineTrue).outcome
        ≠ (offlineFetch envLiveOk urlEx optsOfflineTrue).outcome := by
  refine ⟨by decide, by decide, by decide⟩

/-- C4 (amended): on the offline path a storage read failure is surfaced to
the caller — a `getItem` throw/rejection propagates as is, and an unparseable
cached string rejects with the parse error — while the result of the
fire-and-forget `setItem` can never affect anything the dispatch returns. -/
theorem claim_C4_storage_failures (env : Env) (url : JSPrim) (o : OptionsObj)
    (hu : url.truthy = true) (ho : o.offline.truthy = true) :
    (∀ msg, env.getResult = .failed msg →
      (offlineFetch env url (.obj o)).outcome = .rejected msg) ∧
    (∀ s, env.getResult = .raw (.badStr s) →
      (offlineFetch env url (.obj o)).outcome
        = .rejected ("SyntaxError: Unexpected token in JSON: " ++ s)) ∧
    (∀ b, offlineFetch (env.withSetItemOk b) url (.obj o) = offlineFetch env url (.obj o)) := by
  refine ⟨?_, ?_, ?_⟩
  · intro msg h
    rw [offlineFetch_engaged env url o hu ho]
    simp [offlineCore, h]
  · intro s h
    rw [offlineFetch_engaged env url o hu ho]
    simp [offlineCore, h, jsonParse]
  · intro b
    rw [offlineFetch_engaged env url o hu ho,
      offlineFetch_engaged (env.withSetItemOk b) url o hu ho]
    rfl

/-- C4 (witness): a storage read that fails with "storage exploded" rejects
the dispatch with that message, and flipping the write's success changes
nothing. -/
theorem claim_C4_storage_failures_witness :
    (offlineFetch envGetFail urlEx optsOfflineTrue).outcome = .rejected "storage exploded" ∧
    offlineFetch (envGetFail.withSetItemOk false) urlEx optsOfflineTrue
      = offlineFetch envGetFail urlEx optsOfflineTrue := by
  have h := claim_C4_storage_failures envGetFail urlEx offTrueObj (by decide) (by decide)
  exact ⟨h.1 "storage exploded" rfl, h.2.2 false⟩

/-- C10: on the offline-engaged path the caller's options object is mutated in
place before any network request: afterwards it is exactly the cleaned object,
the cleaned object keeps precisely the non-`null`-valued top-level properties,
and every fetch call of the dispatch is issued with the cleaned object. -/
theorem claim_C10_null_props_deleted (env : Env) (url : JSPrim) (o : OptionsObj)
    (hu : url.truthy = true) (ho : o.offline.truthy = true) :
    (offlineFetch env url (.obj o)).optionsAfter = .obj (cleanOptions o) ∧
    (∀ k v, (k, v) ∈ (cleanOptions o).props ↔ ((k, v) ∈ o.props ∧ v ≠ JSPrim.null)) ∧
    (∀ x ∈ (offlineFetch env url (.obj o)).fetchCalls, x = (url, .obj (cleanOptions o))) := by
  have hrw := offlineFetch_engaged env url o hu ho
  refine ⟨?_, ?_, ?_⟩
  · rw [hrw]
    cases hg : env.getResult with
    | failed msg => simp [offlineCore, hg]
    | missing =>
      simp only [offlineCore, hg]
      apply afterRead_optionsAfter
    | raw v =>
      cases hv : jsonParse v with
      | error msg => simp [offlineCore, hg, hv]
      | ok r =>
        simp only [offlineCore, hg, hv]
        apply afterRead_optionsAfter
    | parsed r =>
      simp only [offlineCore, hg]
      apply afterRead_optionsAfter
  · intro k v
    simp [cleanOptions, List.mem_filter]
  · rw [hrw]
    cases hg : env.getResult with
    | failed msg => simp [offlineCore, hg]
    | missing =>
      simp only [offlineCore, hg]
      apply afterRead_fetchCalls_mem
    | raw v =>
      cases hv : jsonParse v with
      | error msg => simp [offlineCore, hg, hv]
      | ok r =>
        simp only [offlineCore, hg, hv]
        apply afterRead_fetchCalls_mem
    | parsed r =>
      simp only [offlineCore, hg]
      apply afterRead_fetchCalls_mem

/-- C10 (witness): with `{ offline: true, body: null, method: 'POST' }` the
`body: null` property is gone after the call while `method` survives. -/
theorem claim_C10_null_props_deleted_witness :
    (offlineFetch envLiveOk urlEx (.obj oNullProps)).optionsAfter
        = .obj ⟨.prim (.boolV true), [("method", .strV "POST")]⟩ ∧
    ("body", JSPrim.null) ∈ oNullProps.props ∧
    ¬ ("body", JSPrim.null) ∈ (cleanOptions oNullProps).props := by
  have h := claim_C10_null_props_deleted envLiveOk urlEx oNullProps (by decide) (by decide)
  refine ⟨?_, by simp [oNullProps], ?_⟩
  · rw [h.1]
    rfl
  · intro hmem
    have := (h.2.1 "body" JSPrim.null).mp hmem
    exact this.2 rfl

/-- C6: when the first live attempt exceeds the timeout, the dispatch resolves
with the cached record if one exists (reaching the live path because it was
expired or renewed), rejects with the `'Promise Timed Out'` error if nothing
is cached, and in neither case issues more than the one timed-out fetch call
(timeouts are never retried). -/
theorem claim_C6_timeout_fallback (env : Env) (url : JSPrim) (o : OptionsObj)
    (hu : url.truthy = true) (ho : o.offline.truthy = true)
    (ht : env.fetchResult 0 = .hang) :
    (env.getResult = .missing →
      (offlineFetch env url (.obj o)).outcome = .rejected "Promise Timed Out" ∧
      (offlineFetch env url (.obj o)).fetchCalls.length = 1) ∧
    (∀ r, env.getResult = .parsed r →
      env.onLine ≠ some false →
      (cacheExpiredB env.nowAtCheck o r = true ∨ resolvedRenew o = true) →
      (offlineFetch env url (.obj o)).outcome = .resolved (recordToResponse r) ∧
      (offlineFetch env url (.obj o)).fetchCalls.length = 1) := by
  have hrw := offlineFetch_engaged env url o hu ho
  constructor
  · intro hg
    rw [hrw]
    simp only [offlineCore, hg, afterRead]
    unfold livePath
    rw [ht, catchPath_eq]
    simp
  · intro r hg hon hcond
    rw [hrw]
    simp only [offlineCore, hg, afterRead]
    have h1 : (env.onLine == some false) = false := by
      cases h : env.onLine with
      | none => rfl
      | some b => cases b <;> simp_all
    have h2 : (!cacheExpiredB env.nowAtCheck o r && !resolvedRenew o) = false := by
      rcases hcond with h | h <;> simp [h]
    simp only [h1, h2, if_false, Bool.false_eq_true]
    unfold livePath
    rw [ht, catchPath_eq]
    simp

/-- C6 (witness): with a hanging fetch, a cached record under renew is served
with a single fetch call; with nothing cached the timeout error surfaces
after a single fetch call. -/
theorem claim_C6_timeout_fallback_witness :
    ((offlineFetch envHangNone urlEx optsOfflineTrue).outcome = .rejected "Promise Timed Out" ∧
      (offlineFetch envHangNone urlEx optsOfflineTrue).fetchCalls.length = 1) ∧
    ((offlineFetch envHangCache urlEx (.obj oRenew)).outcome
        = .resolved (recordToResponse cachedRec) ∧
      (offlineFetch envHangCache urlEx (.obj oRenew)).fetchCalls.length = 1) := by
  refine ⟨(claim_C6_timeout_fallback envHangNone urlEx offTrueObj
      (by decide) (by decide) rfl).1 rfl,
    (claim_C6_timeout_fallback envHangCache urlEx oRenew
      (by decide) (by decide) rfl).2 cachedRec rfl (by decide) (Or.inr (by decide))⟩

/-- C5: on every dispatch, a storage write happens only for a first live
attempt whose status lies in [200, 299] and whose content type matches
`application/json` or `text/` case-insensitively, and the written value is
exactly the fresh serialized record; for a successful but non-cacheable live
response nothing is written while the live response is still the one
returned whenever any fetch call was issued. -/
theorem claim_C5_cache_write_guard (env : Env) (url : JSPrim) (options : OptionsVal) :
    (∀ k v, (k, v) ∈ (offlineFetch env url options).sets →
      ∃ r, env.fetchResult 0 = .ok r ∧ statusInRange r.status = true ∧
        cacheableContentType (contentTypeOf r) = true ∧
        v = .recordStr (mkStoredRecord r (contentTypeOf r) env.nowAtStore)) ∧
    (∀ r, env.fetchResult 0 = .ok r → shouldCache r = false →
      (offlineFetch env url options).sets = [] ∧
      ((offlineFetch env url options).fetchCalls ≠ [] →
        (offlineFetch env url options).outcome = .resolved (liveToResponse r))) := by
  rcases offlineFetch_cases env url options with h | h | h | ⟨o, hopt, ho, h⟩
  · constructor
    · intro k v hv
      rw [h] at hv
      simp at hv
    · intro r hok hbad
      rw [h]
      exact ⟨rfl, fun hne => by simp at hne⟩
  · constructor
    · intro k v hv
      rw [h] at hv
      simp at hv
    · intro r hok hbad
      rw [h]
      exact ⟨rfl, fun hne => by simp at hne⟩
  · constructor
    · intro k v hv
      rw [h] at hv
      simp [plainFetch] at hv
    · intro r hok hbad
      rw [h]
      refine ⟨rfl, fun _ => ?_⟩
      simp [plainFetch, rawFetchOutcome, hok]
  · constructor
    · intro k v hv
      rw [h] at hv
      obtain ⟨r, hok, hsc, _, hvv⟩ :=
        offlineCore_sets_sub env.fetchResult env.getResult env.onLine
          env.nowAtCheck env.nowAtStore url o k v hv
      unfold shouldCache at hsc
      exact ⟨r, hok, (Bool.and_eq_true _ _).mp hsc |>.1,
        (Bool.and_eq_true _ _).mp hsc |>.2, hvv⟩
    · intro r hok hbad
      rw [h]
      exact offlineCore_ok_notcacheable env.fetchResult env.getResult env.onLine
        env.nowAtCheck env.nowAtStore url o r hok hbad

/-- C5 (witness): a 200 response with `Content-Type: image/png` is returned
live but never written. -/
theorem claim_C5_cache_write_guard_witness :
    envPng.fetchResult 0 = .ok pngOk ∧ shouldCache pngOk = false ∧
    (offlineFetch envPng urlEx optsOfflineTrue).sets = [] ∧
    (offlineFetch envPng urlEx optsOfflineTrue).outcome = .resolved (liveToResponse pngOk) := by
  have h := (claim_C5_cache_write_guard envPng urlEx optsOfflineTrue).2 pngOk rfl (by decide)
  have hlen : (offlineFetch envPng urlEx optsOfflineTrue).fetchCalls.length = 1 := by decide
  have hne : (offlineFetch envPng urlEx optsOfflineTrue).fetchCalls ≠ [] := by
    intro hnil
    rw [hnil] at hlen
    simp at hlen
  exact ⟨rfl, by decide, h.1, h.2 hne⟩

/-- C7 (counterexample): a success obtained through the retry path — first
attempt fails with a network error, second succeeds with a cacheable 200
`text/html` response — resolves the dispatch with that response, yet no cache
record is written. -/
theorem claim_C7_retry_success_not_cached :
    (offlineFetch envRetryThenOk urlEx optsOfflineTrue).outcome
        = .resolved (liveToResponse htmlOk) ∧
    shouldCache htmlOk = true ∧
    (offlineFetch envRetryThenOk urlEx optsOfflineTrue).sets = [] := by
  refine ⟨by decide, by decide, by decide⟩

/-- C7 (amended): the fresh record is written under the call's cache key
exactly when the cacheable success comes from the first live attempt; after a
failed first attempt nothing is ever written, even when a retry succeeds with
a cacheable response. -/
theorem claim_C7_written_only_first_attempt (env : Env) (url : JSPrim) (o : OptionsObj)
    (hu : url.truthy = true) (ho : o.offline.truthy = true) :
    (∀ r, env.fetchResult 0 = .ok r → shouldCache r = true →
      (offlineFetch env url (.obj o)).fetchCalls ≠ [] →
      (offlineFetch env url (.obj o)).sets
          = [(dispatchCacheKey o url,
              .recordStr (mkStoredRecord r (contentTypeOf r) env.nowAtStore))] ∧
      (offlineFetch env url (.obj o)).outcome = .resolved (liveToResponse r)) ∧
    (∀ m, env.fetchResult 0 = .err m → (offlineFetch env url (.obj o)).sets = []) := by
  have hrw := offlineFetch_engaged env url o hu ho
  constructor
  · intro r hok hgood hne
    rw [hrw] at hne ⊢
    exact offlineCore_ok_cacheable env.fetchResult env.getResult env.onLine
      env.nowAtCheck env.nowAtStore url o r hok hgood hne
  · intro m herr
    rw [hrw]
    exact offlineCore_err_sets env.fetchResult env.getResult env.onLine
      env.nowAtCheck env.nowAtStore url o m herr

/-- C7 (witness): a first-attempt 200 `text/html` success writes exactly the
fresh record under the dispatch's key and returns the live response. -/
theorem claim_C7_written_only_first_attempt_witness :
    (offlineFetch envLiveOk urlEx optsOfflineTrue).sets
        = [(dispatchCacheKey offTrueObj urlEx,
            .recordStr (mkStoredRecord htmlOk (contentTypeOf htmlOk) 2000))] ∧
    (offlineFetch envLiveOk urlEx optsOfflineTrue).outcome = .resolved (liveToResponse htmlOk) := by
  have hlen : (offlineFetch envLiveOk urlEx optsOfflineTrue).fetchCalls.length = 1 := by decide
  have hne : (offlineFetch envLiveOk urlEx optsOfflineTrue).fetchCalls ≠ [] := by
    intro hnil
    rw [hnil] at hlen
    simp at hlen
  exact (claim_C7_written_only_first_attempt envLiveOk urlEx offTrueObj
    (by decide) (by decide)).1 htmlOk rfl (by decide) hne

/-- C3 (counterexample): with `retries`/`retryDelay` unset they resolve to
`-1`, not 3 and 1000: after a first non-timeout failure the retry path makes
exactly one further attempt with no delay and rejects with its error — the
dispatch issues 2 fetch calls in total, not the 4 the claimed default of 3
retries would produce. -/
theorem claim_C3_default_retry_counterexample :
    resolvedRetries offTrueObj = -1 ∧
    resolvedRetryDelay offTrueObj = -1 ∧
    (offlineFetch envAllFail urlEx optsOfflineTrue).outcome = .rejected "retry fail" ∧
    (offlineFetch envAllFail urlEx optsOfflineTrue).fetchCalls.length = 2 ∧
    (offlineFetch envAllFail urlEx optsOfflineTrue).delays = [] := by
  refine ⟨by decide, by decide, by decide, by decide, by decide⟩

/-- C3 (amended): the resolved `retries` value is the caller's nonzero value,
or `-1` when unset or zero — never 0, so a non-timeout failure always enters
the retry path (and `fetchRetry`'s internal `|| 3` / `|| 1000` defaults are
dead).  When every attempt fails, the retry path makes `retries.toNat + 1`
further attempts — one more than `retries` — with the resolved `retryDelay`
scheduled between consecutive attempts (`retries.toNat` delays), and the
dispatch rejects with the error of the last attempt. -/
theorem claim_C3_retry_resolution (env : Env) (url : JSPrim) (o : OptionsObj)
    (msgs : Nat → String)
    (hu : url.truthy = true) (ho : o.offline.truthy = true)
    (hg : env.getResult = .missing)
    (hf : ∀ j, env.fetchResult j = .err (msgs j))
    (hnt : msgs 0 ≠ "Promise Timed Out") :
    (offlineFetch env url (.obj o)).outcome
        = .rejected (msgs (1 + (resolvedRetries o).toNat)) ∧
    (offlineFetch env url (.obj o)).fetchCalls.length = 2 + (resolvedRetries o).toNat ∧
    (offlineFetch env url (.obj o)).delays
        = List.replicate (resolvedRetries o).toNat (resolvedRetryDelay o) := by
  rw [offlineFetch_engaged env url o hu ho]
  simp only [offlineCore, hg, afterRead]
  unfold livePath
  simp only [hf 0]
  rw [catchPath_eq]
  have hto : (msgs 0 == "Promise Timed Out") = false := by simpa using hnt
  have hr : (resolvedRetries o != 0) = true := by simpa using resolvedRetries_ne_zero o
  simp only [hto, hr, Bool.false_eq_true, if_false, if_true]
  rw [fetchRetry_all_err env.fetchResult msgs hf (resolvedRetries o) (resolvedRetryDelay o)
    (resolvedRetries_ne_zero o) (resolvedRetryDelay_ne_zero o) 1]
  refine ⟨rfl, ?_, rfl⟩
  simp [List.length_replicate]
  omega

/-- C3 (witness): with `retries: 2, retryDelay: 7` and every attempt failing
with "net down", the dispatch makes 4 fetch calls, schedules two 7 ms delays
and rejects with "net down". -/
theorem claim_C3_retry_resolution_witness :
    (offlineFetch envNetDown urlEx (.obj oRetry2)).outcome = .rejected "net down" ∧
    (offlineFetch envNetDown urlEx (.obj oRetry2)).fetchCalls.length = 4 ∧
    (offlineFetch envNetDown urlEx (.obj oRetry2)).delays = [7, 7] := by
  have h := claim_C3_retry_resolution envNetDown urlEx oRetry2 (fun _ => "net down")
    (by decide) (by decide) rfl (fun j => rfl) (by decide)
  have ht : (resolvedRetries oRetry2).toNat = 2 := by decide
  have hd : resolvedRetryDelay oRetry2 = 7 := by decide
  refine ⟨h.1, ?_, ?_⟩
  · rw [h.2.1, ht]
  · rw [h.2.2, ht, hd]
    rfl

end OfflineFetchModel
